import Mathlib

/-!
Verification development for the typed-resource → IR compiler.

The source splits into three layers:
  * a CIDR arithmetic engine (`src/aws/network/cidr.rs`), embedded in
    namespace `Cidr` with `u32` values represented as `Nat` and overflow
    made explicit with `% 2 ^ 32`;
  * the generic IR block/expression model consumed through the external
    `hcl` crate; that crate's code is not part of the repository sources,
    so its small surface (expression variants, block builder) is modelled
    from the spec in namespace `Hcl`;
  * one compiler per resource kind (`From<...> for Block` impls), embedded
    in namespace `Aws` as pure functions `*.toBlock`, translated line by
    line from the Rust sources.
-/

namespace Hcl

/-- Modelled from the spec: the `hcl` crate's expression model is not under
`src/`; per the spec an expression is a tagged variant of String, Bool,
Array, Object (string keys) or RawReference (an unquoted interpolation
token referring to another resource's attribute). -/
inductive Expression where
  | string (s : String)
  | bool (b : Bool)
  | array (elems : List Expression)
  | object (entries : List (String × Expression))
  | raw (token : String)

/-- Modelled from the spec: the `hcl` crate's `From<String>` conversion used
at the reference-expression call sites (`Expression::from(format!("${...}"))`)
is not under `src/`; per the spec the compiler thereby "emits a RawReference
token ... rather than a literal string", and the repository's own tests
assert the unquoted rendering (`vpc_id = ${aws_vpc.test-vpc.id}`).  An
interpolation-shaped string becomes a RawReference; any other string stays a
String expression. -/
def Expression.fromString (s : String) : Expression :=
  if "$\x7b".data.isPrefixOf s.data && "\x7d".data.isSuffixOf s.data then .raw s
  else .string s

/-- Modelled from the spec: the IR block — a type name, ordered labels,
ordered attribute list and ordered nested blocks (insertion order, not
sorted). -/
inductive Block where
  | mk (block_type : String) (labels : List String)
      (attributes : List (String × Expression)) (nested : List Block)

def Block.block_type : Block → String
  | .mk t _ _ _ => t

def Block.labels : Block → List String
  | .mk _ l _ _ => l

def Block.attributes : Block → List (String × Expression)
  | .mk _ _ a _ => a

def Block.nested : Block → List Block
  | .mk _ _ _ n => n

/-- Modelled from the spec: the builder protocol starts a block with a type
name and no labels, attributes or nested blocks. -/
def Block.builder (t : String) : Block := .mk t [] [] []

/-- Modelled from the spec: labels are appended in call order. -/
def Block.add_label : Block → String → Block
  | .mk t ls as ns, l => .mk t (ls ++ [l]) as ns

/-- Modelled from the spec: attributes are appended in call order. -/
def Block.add_attribute : Block → String × Expression → Block
  | .mk t ls as ns, a => .mk t ls (as ++ [a]) ns

/-- Modelled from the spec: nested blocks are appended in call order. -/
def Block.add_block : Block → Block → Block
  | .mk t ls as ns, n => .mk t ls as (ns ++ [n])

/-- Modelled from the spec: `add_blocks` appends a whole list of nested
blocks in order. -/
def Block.add_blocks : Block → List Block → Block
  | .mk t ls as ns, more => .mk t ls as (ns ++ more)

/-- Modelled from the spec: `build` finalizes the accumulated block. -/
def Block.build (b : Block) : Block := b

/-- First attribute stored under a given name, if any. -/
def Block.getAttr (b : Block) (k : String) : Option Expression :=
  (b.attributes.find? (fun p => p.1 == k)).map (fun p => p.2)

end Hcl

namespace Cidr

/-- The value of `u32::MAX`. -/
def u32Max : Nat := 2 ^ 32 - 1

/-- Source `u32::checked_shl`: `none` when the shift amount is at least the bit
width, otherwise the shifted value truncated to 32 bits. -/
def checkedShl (x n : Nat) : Option Nat :=
  if n ≥ 32 then none else some ((x <<< n) % 2 ^ 32)

/-- Source `u32::checked_shr`: `none` when the shift amount is at least the bit
width, otherwise the shifted value. -/
def checkedShr (x n : Nat) : Option Nat :=
  if n ≥ 32 then none else some (x >>> n)

/-- Source `cidr::Block`: an IPv4 address (as its big-endian `u32` value) plus a
prefix length (a `u8`). -/
structure Block where
  address : Nat
  prefix_length : Nat

/-- Source `Block::new`: rejects a prefix length above 32, otherwise stores both
fields unchanged. -/
def Block.new (address prefix_length : Nat) : Except String Block :=
  if prefix_length > 32 then
    .error "Prefix length must be between 0 and 32"
  else
    .ok ⟨address, prefix_length⟩

/-- Source `Block::network_address`: `0.0.0.0` for prefix 0, otherwise the address
masked with `u32::MAX.checked_shl(32 - prefix_length).unwrap_or(0)`. -/
def Block.network_address (b : Block) : Nat :=
  if b.prefix_length = 0 then 0
  else b.address &&& ((checkedShl u32Max (32 - b.prefix_length)).getD 0)

/-- Source `Block::broadcast_address`: the address itself for prefix 32, otherwise
the address or-ed with `u32::MAX.checked_shr(prefix_length).unwrap_or(0)`. -/
def Block.broadcast_address (b : Block) : Nat :=
  if b.prefix_length = 32 then b.address
  else b.address ||| ((checkedShr u32Max b.prefix_length).getD 0)

/-- Source `Block::contains`: `ip >= network && ip <= broadcast` under unsigned
32-bit ordering. -/
def Block.contains (b : Block) (ip : Nat) : Bool :=
  decide (b.network_address ≤ ip) && decide (ip ≤ b.broadcast_address)

/-- Dotted-decimal rendering of a 32-bit address value. -/
def ipv4Render (n : Nat) : String :=
  toString ((n >>> 24) % 256) ++ "." ++ toString ((n >>> 16) % 256) ++ "."
    ++ toString ((n >>> 8) % 256) ++ "." ++ toString (n % 256)

/-- Source `Display for Block`: `"{address}/{prefix_length}"`. -/
def Block.render (b : Block) : String :=
  ipv4Render b.address ++ "/" ++ toString b.prefix_length

/-- The mask the spec speaks about: the high `p` bits of a 32-bit word, with
`specMask 0 = 0` and `specMask 32 = 0xFFFFFFFF`. -/
def specMask (p : Nat) : Nat := 2 ^ 32 - 2 ^ (32 - p)

end Cidr

namespace Aws

/-- Source `availability_zone::AvailabilityZone` — closed enumeration. -/
inductive AvailabilityZone where
  | UsEast1a
  | UsEast1b
  | UsEast1c

/-- Source `AvailabilityZone::to_string`. -/
def AvailabilityZone.toString : AvailabilityZone → String
  | .UsEast1a => "us-east-1a"
  | .UsEast1b => "us-east-1b"
  | .UsEast1c => "us-east-1c"

/-- The shared tag-map compilation step: every compiler turns a present
`HashMap<String, String>` into an Object expression whose values are String
expressions.  The map is embedded as the association list produced by its
iteration. -/
def tagsExpression (tags : List (String × String)) : Hcl.Expression :=
  .object (tags.map (fun kv => (kv.1, Hcl.Expression.string kv.2)))

/-- Source `vpc::Vpc`. -/
structure Vpc where
  name : String
  cidr_block : Cidr.Block
  instance_tenancy : Option String
  enable_dns_hostnames : Option Bool
  enable_dns_support : Option Bool
  enable_classiclink : Option Bool
  enable_classiclink_dns_support : Option Bool
  assign_generated_ipv6_cidr_block : Option Bool
  tags : Option (List (String × String))

/-- Source `Vpc::resource_name`: `format!("aws_vpc.{}", self.name)`. -/
def Vpc.resource_name (vpc : Vpc) : String := "aws_vpc." ++ vpc.name

/-- Source `From<Vpc> for Block`. -/
def Vpc.toBlock (vpc : Vpc) : Hcl.Block :=
  let block := ((Hcl.Block.builder "resource").add_label "aws_vpc").add_label vpc.name
  let block := block.add_attribute ("cidr_block", .string vpc.cidr_block.render)
  let block := match vpc.instance_tenancy with
    | some instance_tenancy =>
        block.add_attribute ("instance_tenancy", .string instance_tenancy)
    | none => block
  let block := match vpc.enable_dns_hostnames with
    | some enable_dns_hostnames =>
        block.add_attribute ("enable_dns_hostnames", .bool enable_dns_hostnames)
    | none => block
  let block := match vpc.enable_dns_support with
    | some enable_dns_support =>
        block.add_attribute ("enable_dns_support", .bool enable_dns_support)
    | none => block
  let block := match vpc.enable_classiclink with
    | some enable_classiclink =>
        block.add_attribute ("enable_classiclink", .bool enable_classiclink)
    | none => block
  let block := match vpc.enable_classiclink_dns_support with
    | some enable_classiclink_dns_support =>
        block.add_attribute
          ("enable_classiclink_dns_support", .bool enable_classiclink_dns_support)
    | none => block
  let block := match vpc.assign_generated_ipv6_cidr_block with
    | some assign_generated_ipv6_cidr_block =>
        block.add_attribute
          ("assign_generated_ipv6_cidr_block", .bool assign_generated_ipv6_cidr_block)
    | none => block
  let block := match vpc.tags with
    | some tags => block.add_attribute ("tags", tagsExpression tags)
    | none => block
  block.build

/-- Source `subnet::Subnet` (the `&'a Vpc` reference is embedded by value; it is a
read-only borrow in the source). -/
structure Subnet where
  name : String
  vpc : Vpc
  cidr_block : Cidr.Block
  availability_zone : Option AvailabilityZone
  assign_ipv6_address_on_creation : Option Bool
  ipv6_cidr_block : Option String
  map_public_ip_on_launch : Option Bool
  tags : Option (List (String × String))

/-- Source `From<Subnet> for Block`.  The `vpc_id` attribute is
`Expression::from(format!("${{{}.id}}", subnet.vpc.resource_name()))`. -/
def Subnet.toBlock (subnet : Subnet) : Hcl.Block :=
  let block := ((Hcl.Block.builder "resource").add_label "aws_subnet").add_label subnet.name
  let block := block.add_attribute
    ("vpc_id", Hcl.Expression.fromString ("$\x7b" ++ subnet.vpc.resource_name ++ ".id\x7d"))
  let block := block.add_attribute ("cidr_block", .string subnet.cidr_block.render)
  let block := match subnet.availability_zone with
    | some az => block.add_attribute ("availability_zone", .string az.toString)
    | none => block
  let block := match subnet.assign_ipv6_address_on_creation with
    | some assign_ipv6 =>
        block.add_attribute ("assign_ipv6_address_on_creation", .bool assign_ipv6)
    | none => block
  let block := match subnet.ipv6_cidr_block with
    | some ipv6_cidr => block.add_attribute ("ipv6_cidr_block", .string ipv6_cidr)
    | none => block
  let block := match subnet.map_public_ip_on_launch with
    | some map_public_ip =>
        block.add_attribute ("map_public_ip_on_launch", .bool map_public_ip)
    | none => block
  let block := match subnet.tags with
    | some tags => block.add_attribute ("tags", tagsExpression tags)
    | none => block
  block.build

/-- Source `vpc::ElasticIp` (the source field `instance` is a Lean keyword, hence
the trailing underscore). -/
structure ElasticIp where
  name : String
  domain : Option String
  instance_ : Option String
  network_interface : Option String
  public_ipv4_pool : Option String
  customer_owned_ipv4_pool : Option String
  associate_with_private_ip : Option String
  address : Option String
  tags : Option (List (String × String))

/-- Source `From<ElasticIp> for Block`. -/
def ElasticIp.toBlock (eip : ElasticIp) : Hcl.Block :=
  let block := ((Hcl.Block.builder "resource").add_label "aws_eip").add_label eip.name
  let block := match eip.domain with
    | some domain => block.add_attribute ("domain", .string domain)
    | none => block
  let block := match eip.instance_ with
    | some inst => block.add_attribute ("instance", .string inst)
    | none => block
  let block := match eip.network_interface with
    | some network_interface =>
        block.add_attribute ("network_interface", .string network_interface)
    | none => block
  let block := match eip.public_ipv4_pool with
    | some public_ipv4_pool =>
        block.add_attribute ("public_ipv4_pool", .string public_ipv4_pool)
    | none => block
  let block := match eip.customer_owned_ipv4_pool with
    | some customer_owned_ipv4_pool =>
        block.add_attribute ("customer_owned_ipv4_pool", .string customer_owned_ipv4_pool)
    | none => block
  let block := match eip.associate_with_private_ip with
    | some associate_with_private_ip =>
        block.add_attribute ("associate_with_private_ip", .string associate_with_private_ip)
    | none => block
  let block := match eip.address with
    | some address => block.add_attribute ("address", .string address)
    | none => block
  let block := match eip.tags with
    | some tags => block.add_attribute ("tags", tagsExpression tags)
    | none => block
  block.build

/-- The name/values filter record; the source repeats this identical struct
in the vpc, nat and internet modules, embedded once here. -/
structure Filter where
  name : String
  values : List String

/-- The nested `filter` block each data-source compiler builds per filter
entry. -/
def filterBlock (f : Filter) : Hcl.Block :=
  (((Hcl.Block.builder "filter").add_attribute ("name", .string f.name)).add_attribute
    ("values", .array (f.values.map Hcl.Expression.string))).build

/-- Source `vpc::VpcDataSource`. -/
structure VpcDataSource where
  id : Option String
  cidr_block : Option String
  owner_id : Option String
  enable_dns_hostnames : Option Bool
  enable_dns_support : Option Bool
  tags : Option (List (String × String))
  filter : Option (List Filter)

/-- Source `From<VpcDataSource> for Block`. -/
def VpcDataSource.toBlock (data_source : VpcDataSource) : Hcl.Block :=
  let block :=
    ((Hcl.Block.builder "data").add_label "aws_vpc").add_label (data_source.id.getD "vpc")
  let block := match data_source.id with
    | some id => block.add_attribute ("id", .string id)
    | none => block
  let block := match data_source.cidr_block with
    | some cidr_block => block.add_attribute ("cidr_block", .string cidr_block)
    | none => block
  let block := match data_source.owner_id with
    | some owner_id => block.add_attribute ("owner_id", .string owner_id)
    | none => block
  let block := match data_source.enable_dns_hostnames with
    | some enable_dns_hostnames =>
        block.add_attribute ("enable_dns_hostnames", .bool enable_dns_hostnames)
    | none => block
  let block := match data_source.enable_dns_support with
    | some enable_dns_support =>
        block.add_attribute ("enable_dns_support", .bool enable_dns_support)
    | none => block
  let block := match data_source.tags with
    | some tags => block.add_attribute ("tags", tagsExpression tags)
    | none => block
  let block := match data_source.filter with
    | some filters => block.add_blocks (filters.map filterBlock)
    | none => block
  block.build

/-- Source `nat::NAT` (references embedded by value). -/
structure NAT where
  id : Option String
  vpc : Vpc
  subnet : Subnet
  elastic_ip : ElasticIp
  connectivity_type : Option String
  tags : Option (List (String × String))
  state : Option String

/-- Source `From<NAT> for Block`. -/
def NAT.toBlock (nat : NAT) : Hcl.Block :=
  let block :=
    ((Hcl.Block.builder "resource").add_label "aws_nat_gateway").add_label (nat.id.getD "nat")
  let block := block.add_attribute
    ("subnet_id", Hcl.Expression.fromString ("$\x7baws_subnet." ++ nat.subnet.name ++ ".id\x7d"))
  let block := block.add_attribute
    ("allocation_id",
      Hcl.Expression.fromString ("$\x7baws_eip." ++ nat.elastic_ip.name ++ ".id\x7d"))
  let block := match nat.connectivity_type with
    | some connectivity_type =>
        block.add_attribute ("connectivity_type", .string connectivity_type)
    | none => block
  let block := match nat.state with
    | some state => block.add_attribute ("state", .string state)
    | none => block
  let block := match nat.tags with
    | some tags => block.add_attribute ("tags", tagsExpression tags)
    | none => block
  block.build

/-- Source `nat::NATDataSource` (its `subnet_id` field exists but is never emitted
by the compiler, exactly as in the source). -/
structure NATDataSource where
  filter : Option (List Filter)
  id : Option String
  state : Option String
  subnet_id : Option String
  tags : Option (List (String × String))
  vpc_id : Option String

/-- Source `From<NATDataSource> for Block`. -/
def NATDataSource.toBlock (data_source : NATDataSource) : Hcl.Block :=
  let block :=
    ((Hcl.Block.builder "data").add_label "aws_nat_gateway").add_label (data_source.id.getD "nat")
  let block := match data_source.id with
    | some id => block.add_attribute ("id", .string id)
    | none => block
  let block := match data_source.vpc_id with
    | some vpc_id => block.add_attribute ("vpc_id", .string vpc_id)
    | none => block
  let block := match data_source.state with
    | some state => block.add_attribute ("state", .string state)
    | none => block
  let block := match data_source.tags with
    | some tags => block.add_attribute ("tags", tagsExpression tags)
    | none => block
  let block := match data_source.filter with
    | some filters => block.add_blocks (filters.map filterBlock)
    | none => block
  block.build

/-- Source `internet::Internet`. -/
structure Internet where
  name : String
  vpc : Vpc
  tags : Option (List (String × String))

/-- Source `From<Internet> for Block`. -/
def Internet.toBlock (internet : Internet) : Hcl.Block :=
  let block :=
    ((Hcl.Block.builder "resource").add_label "aws_internet_gateway").add_label internet.name
  let block := block.add_attribute
    ("vpc_id", Hcl.Expression.fromString ("$\x7baws_vpc." ++ internet.vpc.name ++ ".id\x7d"))
  let block := match internet.tags with
    | some tags => block.add_attribute ("tags", tagsExpression tags)
    | none => block
  block.build

/-- Source `internet::InternetDataSource`. -/
structure InternetDataSource where
  name : String
  internet_gateway_id : Option String
  filter : Option (List Filter)
  tags : Option (List (String × String))

/-- Source `From<InternetDataSource> for Block`. -/
def InternetDataSource.toBlock (data_source : InternetDataSource) : Hcl.Block :=
  let block :=
    ((Hcl.Block.builder "data").add_label "aws_internet_gateway").add_label data_source.name
  let block := match data_source.internet_gateway_id with
    | some id => block.add_attribute ("internet_gateway_id", .string id)
    | none => block
  let block := match data_source.tags with
    | some tags => block.add_attribute ("tags", tagsExpression tags)
    | none => block
  let block := match data_source.filter with
    | some filters => block.add_blocks (filters.map filterBlock)
    | none => block
  block.build

/-- Source `s3::ACLOptions` — the canned ACL values. -/
inductive ACLOptions where
  | Private
  | PublicRead
  | PublicReadWrite
  | AuthenticatedRead
  | LogDeliveryWrite
  | BucketOwnerRead
  | BucketOwnerFullControl

/-- Source `Display for ACLOptions`. -/
def ACLOptions.toString : ACLOptions → String
  | .Private => "private"
  | .PublicRead => "public-read"
  | .PublicReadWrite => "public-read-write"
  | .AuthenticatedRead => "authenticated-read"
  | .LogDeliveryWrite => "log-delivery-write"
  | .BucketOwnerRead => "bucket-owner-read"
  | .BucketOwnerFullControl => "bucket-owner-full-control"

/-- Source `s3::AccessControlPolicy`. -/
inductive AccessControlPolicy where
  | AccessControlPolicy
  | ACL

/-- Source `s3::BucketACL`. -/
structure BucketACL where
  acl : Option ACLOptions
  access_control_policy : Option AccessControlPolicy
  bucket : String
  expected_bucket_owner : Option String

/-- Source `From<BucketACL> for Block`: the `bucket` field is both the second label
and a mandatory attribute; `acl` is emitted only when present (no
defaulting); a present `access_control_policy` becomes a nested block. -/
def BucketACL.toBlock (bucket_acl : BucketACL) : Hcl.Block :=
  let block :=
    ((Hcl.Block.builder "resource").add_label "aws_s3_bucket_acl").add_label bucket_acl.bucket
  let block := block.add_attribute ("bucket", .string bucket_acl.bucket)
  let block := match bucket_acl.acl with
    | some acl => block.add_attribute ("acl", .string acl.toString)
    | none => block
  let block := match bucket_acl.access_control_policy with
    | some .AccessControlPolicy =>
        block.add_block
          (((Hcl.Block.builder "access_control_policy").add_attribute
            ("type", .string "access_control_policy")).build)
    | some .ACL =>
        block.add_block
          (((Hcl.Block.builder "access_control_policy").add_attribute
            ("type", .string "acl")).build)
    | none => block
  let block := match bucket_acl.expected_bucket_owner with
    | some expected_bucket_owner =>
        block.add_attribute ("expected_bucket_owner", .string expected_bucket_owner)
    | none => block
  block.build

/-- Source `s3::Bucket` (the source field `prefix` is a Lean keyword, hence the
trailing underscore; it compiles to the `bucket_prefix` attribute). -/
structure Bucket where
  name : Option String
  acl : Option ACLOptions
  prefix_ : Option String
  force_destroy : Option Bool
  object_lock_enabled : Option Bool
  tags : Option (List (String × String))

/-- Source `From<Bucket> for Block`: the name, when present, doubles as second
label and `bucket` attribute; an absent `acl` defaults to `"private"`. -/
def Bucket.toBlock (bucket : Bucket) : Hcl.Block :=
  let block := (Hcl.Block.builder "resource").add_label "aws_s3_bucket"
  let block := match bucket.name with
    | some name => (block.add_label name).add_attribute ("bucket", .string name)
    | none => block
  let block := match bucket.acl with
    | some acl => block.add_attribute ("acl", .string acl.toString)
    | none => block.add_attribute ("acl", .string ACLOptions.Private.toString)
  let block := match bucket.prefix_ with
    | some p => block.add_attribute ("bucket_prefix", .string p)
    | none => block
  let block := match bucket.force_destroy with
    | some force_destroy => block.add_attribute ("force_destroy", .bool force_destroy)
    | none => block
  let block := match bucket.object_lock_enabled with
    | some object_lock_enabled =>
        block.add_attribute ("object_lock_enabled", .bool object_lock_enabled)
    | none => block
  let block := match bucket.tags with
    | some tags => block.add_attribute ("tags", tagsExpression tags)
    | none => block
  block.build

end Aws

namespace Cidr

theorem checkedShl_mask (p : Nat) (h0 : p ≠ 0) (hp : p ≤ 32) :
    (checkedShl u32Max (32 - p)).getD 0 = specMask p := by
  interval_cases p
  · exact absurd rfl h0
  all_goals decide

theorem checkedShr_mask (p : Nat) (hp : p ≤ 32) :
    (checkedShr u32Max p).getD 0 = u32Max ^^^ specMask p := by
  interval_cases p <;> decide

theorem and_u32Max (a : Nat) (ha : a < 2 ^ 32) : a &&& u32Max = a := by
  show a &&& (2 ^ 32 - 1) = a
  exact Nat.and_pow_two_sub_one_of_lt_two_pow ha

theorem or_u32Max (a : Nat) (ha : a < 2 ^ 32) : a ||| u32Max = u32Max := by
  apply Nat.eq_of_testBit_eq
  intro i
  rw [Nat.testBit_or]
  by_cases h : i < 32
  · have ht : u32Max.testBit i = true := by
      show ((2 : Nat) ^ 32 - 1).testBit i = true
      rw [Nat.testBit_two_pow_sub_one]
      simp [h]
    simp [ht]
  · have hb : a.testBit i = false :=
      Nat.testBit_lt_two_pow
        (lt_of_lt_of_le ha (Nat.pow_le_pow_right (by norm_num) (Nat.le_of_not_lt h)))
    simp [hb]

theorem left_le_lor (a b : Nat) : a ≤ a ||| b := by
  apply Nat.le_of_testBit
  intro i h
  simp [Nat.testBit_or, h]

/-- A successful construction stores the fields unchanged and certifies the
prefix bound. -/
theorem Block.new_ok (a p : Nat) (blk : Block) (h : Block.new a p = .ok blk) :
    blk = ⟨a, p⟩ ∧ p ≤ 32 := by
  unfold Block.new at h
  split at h
  · exact absurd h (by simp)
  · next hc =>
    refine ⟨?_, Nat.le_of_not_lt hc⟩
    cases h
    rfl

end Cidr

/-- C2: for every CIDR block constructed with prefix_length in 0..=32,
`network_address` is the address AND-ed with the high-bits mask and
`broadcast_address` is the address OR-ed with the complement of that mask,
where the mask of 0 is all-zeros and the mask of 32 is all-ones; prefix 0
yields network 0.0.0.0 and broadcast 255.255.255.255, and prefix 32 yields
network = broadcast = address. -/
theorem cidr_network_broadcast_mask (a p : Nat) (blk : Cidr.Block)
    (ha : a < 2 ^ 32) (h : Cidr.Block.new a p = Except.ok blk) :
    blk.network_address = a &&& Cidr.specMask p ∧
    blk.broadcast_address = a ||| (Cidr.u32Max ^^^ Cidr.specMask p) ∧
    (p = 0 → blk.network_address = 0 ∧ blk.broadcast_address = Cidr.u32Max) ∧
    (p = 32 → blk.network_address = a ∧ blk.broadcast_address = a) := by
  obtain ⟨hblk, hp⟩ := Cidr.Block.new_ok a p blk h
  subst hblk
  refine ⟨?_, ?_, ?_, ?_⟩
  · by_cases h0 : p = 0
    · subst h0
      have hm : Cidr.specMask 0 = 0 := by decide
      rw [hm]
      simp [Cidr.Block.network_address, Nat.and_zero]
    · have hn : Cidr.Block.network_address ⟨a, p⟩
          = a &&& (Cidr.checkedShl Cidr.u32Max (32 - p)).getD 0 := by
        simp [Cidr.Block.network_address, h0]
      rw [hn, Cidr.checkedShl_mask p h0 hp]
  · by_cases h32 : p = 32
    · subst h32
      have hm : Cidr.u32Max ^^^ Cidr.specMask 32 = 0 := by decide
      rw [hm]
      simp [Cidr.Block.broadcast_address, Nat.or_zero]
    · have hb : Cidr.Block.broadcast_address ⟨a, p⟩
          = a ||| (Cidr.checkedShr Cidr.u32Max p).getD 0 := by
        simp [Cidr.Block.broadcast_address, h32]
      rw [hb, Cidr.checkedShr_mask p hp]
  · intro h0
    subst h0
    refine ⟨by simp [Cidr.Block.network_address], ?_⟩
    have hs : (Cidr.checkedShr Cidr.u32Max 0).getD 0 = Cidr.u32Max := by decide
    have hb : Cidr.Block.broadcast_address ⟨a, 0⟩ = a ||| Cidr.u32Max := by
      simp [Cidr.Block.broadcast_address, hs]
    rw [hb]
    exact Cidr.or_u32Max a ha
  · intro h32
    subst h32
    constructor
    · have hs : (Cidr.checkedShl Cidr.u32Max 0).getD 0 = Cidr.u32Max := by decide
      have hn : Cidr.Block.network_address ⟨a, 32⟩ = a &&& Cidr.u32Max := by
        simp [Cidr.Block.network_address, hs]
      rw [hn]
      exact Cidr.and_u32Max a ha
    · simp [Cidr.Block.broadcast_address]

/-- Witness for C2 at 192.168.1.100/24. -/
theorem cidr_network_broadcast_mask_witness :
    (3232235876 < 2 ^ 32) ∧
    (Cidr.Block.new 3232235876 24 = Except.ok ⟨3232235876, 24⟩) ∧
    ((Cidr.Block.mk 3232235876 24).network_address = 3232235876 &&& Cidr.specMask 24 ∧
     (Cidr.Block.mk 3232235876 24).broadcast_address
        = 3232235876 ||| (Cidr.u32Max ^^^ Cidr.specMask 24) ∧
     ((24 : Nat) = 0 → (Cidr.Block.mk 3232235876 24).network_address = 0 ∧
        (Cidr.Block.mk 3232235876 24).broadcast_address = Cidr.u32Max) ∧
     ((24 : Nat) = 32 → (Cidr.Block.mk 3232235876 24).network_address = 3232235876 ∧
        (Cidr.Block.mk 3232235876 24).broadcast_address = 3232235876)) :=
  ⟨by decide, rfl,
    cidr_network_broadcast_mask 3232235876 24 ⟨3232235876, 24⟩ (by decide) rfl⟩

/-- C3: for every CIDR block constructed with prefix_length ≤ 32, under
unsigned 32-bit ordering: network_address ≤ address ≤ broadcast_address,
the block contains both its network and broadcast addresses, and an
arbitrary ip is contained exactly when it lies in that closed range. -/
theorem cidr_contains_range (a p : Nat) (blk : Cidr.Block)
    (h : Cidr.Block.new a p = Except.ok blk) :
    blk.network_address ≤ a ∧ a ≤ blk.broadcast_address ∧
    blk.contains blk.network_address = true ∧
    blk.contains blk.broadcast_address = true ∧
    (∀ ip : Nat, blk.contains ip = true ↔
      blk.network_address ≤ ip ∧ ip ≤ blk.broadcast_address) := by
  obtain ⟨hblk, hp⟩ := Cidr.Block.new_ok a p blk h
  subst hblk
  have hnet : Cidr.Block.network_address ⟨a, p⟩ ≤ a := by
    by_cases h0 : p = 0
    · simp [Cidr.Block.network_address, h0]
    · have hn : Cidr.Block.network_address ⟨a, p⟩
          = a &&& (Cidr.checkedShl Cidr.u32Max (32 - p)).getD 0 := by
        simp [Cidr.Block.network_address, h0]
      rw [hn]
      exact Nat.and_le_left
  have hbc : a ≤ Cidr.Block.broadcast_address ⟨a, p⟩ := by
    by_cases h32 : p = 32
    · simp [Cidr.Block.broadcast_address, h32]
    · have hb : Cidr.Block.broadcast_address ⟨a, p⟩
          = a ||| (Cidr.checkedShr Cidr.u32Max p).getD 0 := by
        simp [Cidr.Block.broadcast_address, h32]
      rw [hb]
      exact Cidr.left_le_lor a _
  have hnb : Cidr.Block.network_address ⟨a, p⟩ ≤ Cidr.Block.broadcast_address ⟨a, p⟩ :=
    le_trans hnet hbc
  refine ⟨hnet, hbc, ?_, ?_, ?_⟩
  · simp [Cidr.Block.contains, Bool.and_eq_true, decide_eq_true_eq, hnb]
  · simp [Cidr.Block.contains, Bool.and_eq_true, decide_eq_true_eq, hnb]
  · intro ip
    simp [Cidr.Block.contains, Bool.and_eq_true, decide_eq_true_eq]

/-- Witness for C3 at 192.168.1.100/24 (membership tested at the address
itself). -/
theorem cidr_contains_range_witness :
    (Cidr.Block.new 3232235876 24 = Except.ok ⟨3232235876, 24⟩) ∧
    ((Cidr.Block.mk 3232235876 24).network_address ≤ 3232235876 ∧
     3232235876 ≤ (Cidr.Block.mk 3232235876 24).broadcast_address ∧
     (Cidr.Block.mk 3232235876 24).contains
        ((Cidr.Block.mk 3232235876 24).network_address) = true ∧
     (Cidr.Block.mk 3232235876 24).contains
        ((Cidr.Block.mk 3232235876 24).broadcast_address) = true ∧
     (∀ ip : Nat, (Cidr.Block.mk 3232235876 24).contains ip = true ↔
        (Cidr.Block.mk 3232235876 24).network_address ≤ ip ∧
        ip ≤ (Cidr.Block.mk 3232235876 24).broadcast_address)) :=
  ⟨rfl, cidr_contains_range 3232235876 24 ⟨3232235876, 24⟩ rfl⟩

/-- C4: CIDR construction fails with the invalid-prefix error exactly when
prefix_length > 32, and a successful construction stores address and prefix
unchanged. -/
theorem cidr_new_invalid_prefix_iff (a p : Nat) :
    (p > 32 → Cidr.Block.new a p = Except.error "Prefix length must be between 0 and 32") ∧
    (p ≤ 32 → Cidr.Block.new a p = Except.ok ⟨a, p⟩) := by
  constructor
  · intro h
    simp [Cidr.Block.new, h]
  · intro h
    have hc : ¬ p > 32 := Nat.not_lt.mpr h
    simp [Cidr.Block.new, hc]

/-- Witness for C4: prefix 33 fails, prefix 32 succeeds. -/
theorem cidr_new_invalid_prefix_iff_witness :
    ((33 : Nat) > 32) ∧ ((32 : Nat) ≤ 32) ∧
    Cidr.Block.new 0 33 = Except.error "Prefix length must be between 0 and 32" ∧
    Cidr.Block.new 0 32 = Except.ok ⟨0, 32⟩ :=
  ⟨by decide, by decide, (cidr_new_invalid_prefix_iff 0 33).1 (by decide),
    (cidr_new_invalid_prefix_iff 0 32).2 (by decide)⟩

/-- C1: a Subnet whose referenced network is named "main" compiles its
vpc_id attribute to the RawReference token for the id attribute of
aws_vpc.main, and not to a literal String expression. -/
theorem subnet_vpc_id_raw_reference (subnet : Aws.Subnet)
    (h : subnet.vpc.name = "main") :
    subnet.toBlock.getAttr "vpc_id"
      = some (Hcl.Expression.raw "$\x7baws_vpc.main.id\x7d") ∧
    (∀ s : String,
      subnet.toBlock.getAttr "vpc_id" ≠ some (Hcl.Expression.string s)) := by
  obtain ⟨nm, vpc, cb, az, ai, i6, mp, tg⟩ := subnet
  obtain ⟨vn, vcb, vit, vdh, vds, vcl, vcld, vag, vtg⟩ := vpc
  have h' : vn = "main" := h
  subst h'
  have hmain : (Aws.Subnet.toBlock
      ⟨nm, ⟨"main", vcb, vit, vdh, vds, vcl, vcld, vag, vtg⟩,
        cb, az, ai, i6, mp, tg⟩).getAttr "vpc_id"
      = some (Hcl.Expression.raw "$\x7baws_vpc.main.id\x7d") := by
    cases az <;> cases ai <;> cases i6 <;> cases mp <;> cases tg <;> rfl
  refine ⟨hmain, ?_⟩
  intro s hs
  rw [hmain] at hs
  simp at hs

/-- Witness for C1 at a concrete subnet of the network "main". -/
theorem subnet_vpc_id_raw_reference_witness :
    (Aws.Subnet.toBlock
        ⟨"web", ⟨"main", ⟨167772160, 16⟩, none, none, none, none, none, none, none⟩,
          ⟨167772416, 24⟩, none, none, none, none, none⟩).getAttr "vpc_id"
      = some (Hcl.Expression.raw "$\x7baws_vpc.main.id\x7d") ∧
    (∀ s : String,
      (Aws.Subnet.toBlock
          ⟨"web", ⟨"main", ⟨167772160, 16⟩, none, none, none, none, none, none, none⟩,
            ⟨167772416, 24⟩, none, none, none, none, none⟩).getAttr "vpc_id"
        ≠ some (Hcl.Expression.string s)) :=
  subnet_vpc_id_raw_reference
    ⟨"web", ⟨"main", ⟨167772160, 16⟩, none, none, none, none, none, none, none⟩,
      ⟨167772416, 24⟩, none, none, none, none, none⟩ rfl

/-- C5: the compiled bucket block always carries an acl attribute — the
canned string of the given ACL when present, "private" when absent — and a
bucket with every optional field absent compiles to exactly the one
attribute acl = "private". -/
theorem bucket_acl_attribute (b : Aws.Bucket) :
    b.toBlock.getAttr "acl"
      = some (Hcl.Expression.string (b.acl.getD Aws.ACLOptions.Private).toString) ∧
    (Aws.Bucket.toBlock ⟨none, none, none, none, none, none⟩).attributes
      = [("acl", Hcl.Expression.string "private")] := by
  obtain ⟨nm, acl, pfx, fd, ole, tg⟩ := b
  refine ⟨?_, rfl⟩
  cases nm <;> cases acl <;> cases pfx <;> cases fd <;> cases ole <;> cases tg <;> rfl

/-- C6: for Bucket and Vpc, an absent tag map contributes no tags attribute
while a present map contributes an Object of String expressions over exactly
its entries; an explicitly empty map yields an empty object, observably
different from absence. -/
theorem tags_absent_vs_empty (b : Aws.Bucket) (v : Aws.Vpc) :
    b.toBlock.getAttr "tags" = b.tags.map Aws.tagsExpression ∧
    v.toBlock.getAttr "tags" = v.tags.map Aws.tagsExpression ∧
    (Aws.Bucket.toBlock ⟨some "b", none, none, none, none, some []⟩).getAttr "tags"
      = some (Hcl.Expression.object []) ∧
    (Aws.Bucket.toBlock ⟨some "b", none, none, none, none, none⟩).getAttr "tags"
      = none := by
  obtain ⟨nm, acl, pfx, fd, ole, tg⟩ := b
  obtain ⟨vn, vcb, vit, vdh, vds, vcl, vcld, vag, vtg⟩ := v
  refine ⟨?_, ?_, rfl, rfl⟩
  · cases nm <;> cases acl <;> cases pfx <;> cases fd <;> cases ole <;> cases tg <;> rfl
  · cases vit <;> cases vdh <;> cases vds <;> cases vcl <;> cases vcld <;> cases vag <;>
      cases vtg <;> rfl

/-- C7 counterexample: a Bucket with no name compiles to a block whose label
list is just the fixed type label — there is no second label, contradicting
the claim that every compiled block has one. -/
theorem bucket_without_name_single_label :
    (Aws.Bucket.toBlock ⟨none, none, none, none, none, none⟩).labels
      = ["aws_s3_bucket"] := rfl

/-- C7 amended: every compiler's first label is its fixed resource-type
identifier; the second label is the user-assigned name where one exists and
the id-or-fallback literal for the NAT gateway and the data sources — except
that the Bucket compiler emits a second label only when the bucket has a
name, so an unnamed bucket's block has just the type label. -/
theorem label_policy (v : Aws.Vpc) (s : Aws.Subnet) (e : Aws.ElasticIp) (n : Aws.NAT)
    (nd : Aws.NATDataSource) (vd : Aws.VpcDataSource) (ig : Aws.Internet)
    (igd : Aws.InternetDataSource) (ba : Aws.BucketACL) (b : Aws.Bucket) :
    v.toBlock.labels = ["aws_vpc", v.name] ∧
    s.toBlock.labels = ["aws_subnet", s.name] ∧
    e.toBlock.labels = ["aws_eip", e.name] ∧
    n.toBlock.labels = ["aws_nat_gateway", n.id.getD "nat"] ∧
    nd.toBlock.labels = ["aws_nat_gateway", nd.id.getD "nat"] ∧
    vd.toBlock.labels = ["aws_vpc", vd.id.getD "vpc"] ∧
    ig.toBlock.labels = ["aws_internet_gateway", ig.name] ∧
    igd.toBlock.labels = ["aws_internet_gateway", igd.name] ∧
    ba.toBlock.labels = ["aws_s3_bucket_acl", ba.bucket] ∧
    b.toBlock.labels = (match b.name with
      | some nm => ["aws_s3_bucket", nm]
      | none => ["aws_s3_bucket"]) := by
  refine ⟨?_, ?_, ?_, ?_, ?_, ?_, ?_, ?_, ?_, ?_⟩
  · obtain ⟨vn, vcb, vit, vdh, vds, vcl, vcld, vag, vtg⟩ := v
    cases vit <;> cases vdh <;> cases vds <;> cases vcl <;> cases vcld <;> cases vag <;>
      cases vtg <;> rfl
  · obtain ⟨nm, svpc, cb, az, ai, i6, mp, tg⟩ := s
    cases az <;> cases ai <;> cases i6 <;> cases mp <;> cases tg <;> rfl
  · obtain ⟨en, ed, ei, eni, ep, ec, ea, ead, etg⟩ := e
    cases ed <;> cases ei <;> cases eni <;> cases ep <;> cases ec <;> cases ea <;>
      cases ead <;> cases etg <;> rfl
  · obtain ⟨nid, nvpc, nsub, neip, nct, ntg, nst⟩ := n
    cases nct <;> cases nst <;> cases ntg <;> rfl
  · obtain ⟨ndf, ndid, nds, ndsub, ndtg, ndv⟩ := nd
    cases ndid <;> cases ndv <;> cases nds <;> cases ndtg <;> cases ndf <;> rfl
  · obtain ⟨vdid, vdcb, vdo, vdhn, vds2, vdtg, vdf⟩ := vd
    cases vdid <;> cases vdcb <;> cases vdo <;> cases vdhn <;> cases vds2 <;>
      cases vdtg <;> cases vdf <;> rfl
  · obtain ⟨ign, igvpc, igtg⟩ := ig
    cases igtg <;> rfl
  · obtain ⟨igdn, igdid, igdf, igdtg⟩ := igd
    cases igdid <;> cases igdtg <;> cases igdf <;> rfl
  · obtain ⟨baa, bap, bab, bae⟩ := ba
    cases baa <;> rcases bap with _ | (_ | _) <;> cases bae <;> rfl
  · obtain ⟨bn, bacl, bp, bf, bo, btg⟩ := b
    cases bn <;> cases bacl <;> cases bp <;> cases bf <;> cases bo <;> cases btg <;> rfl

/-- C8: every data-source compiler turns its filter list into one nested
"filter" block per entry, in list order, each carrying a name attribute and
a values array of String expressions in order. -/
theorem data_source_filter_blocks (vd : Aws.VpcDataSource) (nd : Aws.NATDataSource)
    (igd : Aws.InternetDataSource) (f : Aws.Filter) :
    vd.toBlock.nested = (vd.filter.getD []).map Aws.filterBlock ∧
    nd.toBlock.nested = (nd.filter.getD []).map Aws.filterBlock ∧
    igd.toBlock.nested = (igd.filter.getD []).map Aws.filterBlock ∧
    (Aws.filterBlock f).block_type = "filter" ∧
    (Aws.filterBlock f).attributes
      = [("name", Hcl.Expression.string f.name),
         ("values", Hcl.Expression.array (f.values.map Hcl.Expression.string))] := by
  refine ⟨?_, ?_, ?_, rfl, rfl⟩
  · obtain ⟨vdid, vdcb, vdo, vdhn, vds2, vdtg, vdf⟩ := vd
    cases vdid <;> cases vdcb <;> cases vdo <;> cases vdhn <;> cases vds2 <;>
      cases vdtg <;> cases vdf <;> rfl
  · obtain ⟨ndf, ndid, nds, ndsub, ndtg, ndv⟩ := nd
    cases ndid <;> cases ndv <;> cases nds <;> cases ndtg <;> cases ndf <;> rfl
  · obtain ⟨igdn, igdid, igdf, igdtg⟩ := igd
    cases igdid <;> cases igdtg <;> cases igdf <;> rfl

/-- C9: compilation is deterministic — equal inputs (the tag map embedded in
its iteration order) compile to identical IR blocks, component by
component. -/
theorem compilation_deterministic (b1 b2 : Aws.Bucket) (v1 v2 : Aws.Vpc)
    (hb : b1 = b2) (hv : v1 = v2) :
    (b1.toBlock.block_type = b2.toBlock.block_type ∧
     b1.toBlock.labels = b2.toBlock.labels ∧
     b1.toBlock.attributes = b2.toBlock.attributes ∧
     b1.toBlock.nested = b2.toBlock.nested) ∧
    v1.toBlock = v2.toBlock := by
  subst hb
  subst hv
  exact ⟨⟨rfl, rfl, rfl, rfl⟩, rfl⟩

/-- Witness for C9 at a bucket and a vpc that both carry a tag map. -/
theorem compilation_deterministic_witness :
    ((Aws.Bucket.toBlock ⟨some "b", none, none, none, none, some [("Env", "Prod")]⟩).block_type
        = (Aws.Bucket.toBlock
            ⟨some "b", none, none, none, none, some [("Env", "Prod")]⟩).block_type ∧
     (Aws.Bucket.toBlock ⟨some "b", none, none, none, none, some [("Env", "Prod")]⟩).labels
        = (Aws.Bucket.toBlock
            ⟨some "b", none, none, none, none, some [("Env", "Prod")]⟩).labels ∧
     (Aws.Bucket.toBlock ⟨some "b", none, none, none, none, some [("Env", "Prod")]⟩).attributes
        = (Aws.Bucket.toBlock
            ⟨some "b", none, none, none, none, some [("Env", "Prod")]⟩).attributes ∧
     (Aws.Bucket.toBlock ⟨some "b", none, none, none, none, some [("Env", "Prod")]⟩).nested
        = (Aws.Bucket.toBlock
            ⟨some "b", none, none, none, none, some [("Env", "Prod")]⟩).nested) ∧
    Aws.Vpc.toBlock
        ⟨"main", ⟨167772160, 16⟩, none, none, none, none, none, none,
          some [("Env", "Prod")]⟩
      = Aws.Vpc.toBlock
          ⟨"main", ⟨167772160, 16⟩, none, none, none, none, none, none,
            some [("Env", "Prod")]⟩ :=
  compilation_deterministic
    ⟨some "b", none, none, none, none, some [("Env", "Prod")]⟩
    ⟨some "b", none, none, none, none, some [("Env", "Prod")]⟩
    ⟨"main", ⟨167772160, 16⟩, none, none, none, none, none, none, some [("Env", "Prod")]⟩
    ⟨"main", ⟨167772160, 16⟩, none, none, none, none, none, none, some [("Env", "Prod")]⟩
    rfl rfl

/-- C10: the BucketACL compiler emits an acl attribute exactly when the acl
field is present (no "private" defaulting), always emits a bucket attribute
equal to the bucket field, and uses that field as the second label. -/
theorem bucket_acl_resource_compile (a : Aws.BucketACL) :
    a.toBlock.getAttr "acl" = a.acl.map (fun o => Hcl.Expression.string o.toString) ∧
    a.toBlock.getAttr "bucket" = some (Hcl.Expression.string a.bucket) ∧
    a.toBlock.labels = ["aws_s3_bucket_acl", a.bucket] := by
  obtain ⟨aacl, apol, abkt, aeo⟩ := a
  refine ⟨?_, ?_, ?_⟩ <;>
    (cases aacl <;> rcases apol with _ | (_ | _) <;> cases aeo <;> rfl)
